import Mathlib

/-!
Verification of the MEV sandwich detector (`mev_engine/src/lib.rs`).

The Rust source is shallowly embedded: `u64` fields become `Nat` (with
explicit `% 2 ^ 64` where wraparound matters), `f64` slippage values are
modelled as exact rationals `ℚ`, `Option<T>` becomes `Option`, and the
JSON-deserialization boundary (external `serde_json`) is modelled as an
abstract parse function returning `Except`.
-/

namespace MevEngine

/-- Embedding of the Rust `Transaction` struct.  The Rust field `from` is a
Lean keyword and is rendered `from_addr`; all other field names match the
source.  `u64` fields are `Nat`, `f64` is `ℚ`. -/
structure Transaction where
  hash : String
  from_addr : String
  «to» : String
  value : String
  gas_price : String
  gas_limit : String
  input : String
  timestamp : Nat
  block_number : Nat
  sender : String
  slippage_tolerance : Option ℚ
  is_uniswap_swap : Bool
  token_in : Option String
  token_out : Option String
  amount_in : Option String
  amount_out_min : Option String
deriving DecidableEq, Repr

/-- Embedding of the Rust `Direction` enum. -/
inductive Direction where
  | Before
  | After
deriving DecidableEq, Repr

/-- Embedding of `find_uniswap_swap`: the first transaction whose
`is_uniswap_swap` flag is set, if any (`Iterator::find`). -/
def find_uniswap_swap (transactions : List Transaction) : Option Transaction :=
  transactions.find? (fun tx => tx.is_uniswap_swap)

/-- Wrapping `u64` subtraction (release-mode Rust semantics of `a - b`),
valid for operands below `2 ^ 64`. -/
def u64_wrapping_sub (a b : Nat) : Nat :=
  (a + 2 ^ 64 - b) % 2 ^ 64

/-- The key computed by the `min_by_key` closure inside `find_matching_tx`:
`victim.timestamp - tx.timestamp` for `Before`, the reverse for `After`.
The Rust subtraction is on `u64`; in release builds it wraps, which the
model makes explicit. -/
def match_key (victim : Transaction) (direction : Direction) (tx : Transaction) : Nat :=
  if direction = Direction.Before then
    u64_wrapping_sub victim.timestamp tx.timestamp
  else
    u64_wrapping_sub tx.timestamp victim.timestamp

/-- Rust's `Iterator::min_by_key`: the first element attaining the minimal
key, or `none` on an empty iterator. -/
def min_by_key_first (key : Transaction → Nat) : List Transaction → Option Transaction
  | [] => none
  | t :: ts => some (ts.foldl (fun best tx => if key tx < key best then tx else best) t)

/-- The candidate filter inside `find_matching_tx`: same `to` address as the
victim and a different hash. -/
def match_filter (victim tx : Transaction) : Bool :=
  tx.«to» == victim.«to» && !(tx.hash == victim.hash)

/-- Embedding of `find_matching_tx`: filter candidates sharing the victim's
`to` address (and differing in hash), then take the candidate minimizing the
directional timestamp key. -/
def find_matching_tx (transactions : List Transaction) (victim : Transaction)
    (direction : Direction) : Option Transaction :=
  min_by_key_first (match_key victim direction)
    (transactions.filter (fun tx => match_filter victim tx))

/-- The (minuend, subtrahend) pairs of the `u64` subtractions that the
`min_by_key` closure of `find_matching_tx` evaluates: one per surviving
candidate. -/
def match_key_subtractions (transactions : List Transaction) (victim : Transaction)
    (direction : Direction) : List (Nat × Nat) :=
  (transactions.filter (fun tx => match_filter victim tx)).map
    (fun tx =>
      if direction = Direction.Before then (victim.timestamp, tx.timestamp)
      else (tx.timestamp, victim.timestamp))

/-- Embedding of the `time_within_limit` computation in `detect_mev_sandwich`:
guarded `u64` subtraction, strict 120-second bound.  Under each guard the
Rust subtraction cannot underflow, so plain `Nat` subtraction is exact. -/
def time_within_limit (fr br : Transaction) : Bool :=
  if br.timestamp > fr.timestamp then
    decide (br.timestamp - fr.timestamp < 120)
  else
    decide (fr.timestamp - br.timestamp < 120)

/-- Variant of `time_within_limit` using the wrapping `u64` subtraction,
to state that the guarded computation never relies on wraparound. -/
def time_within_limit_u64 (fr br : Transaction) : Bool :=
  if br.timestamp > fr.timestamp then
    decide (u64_wrapping_sub br.timestamp fr.timestamp < 120)
  else
    decide (u64_wrapping_sub fr.timestamp br.timestamp < 120)

/-- Embedding of the `high_slippage_victim` computation:
`victim.slippage_tolerance.map_or(false, |s| s > 0.05)`, with the `f64`
threshold `0.05` rendered as the exact rational `mkRat 1 20`. -/
def high_slippage_victim (victim : Transaction) : Bool :=
  victim.slippage_tolerance.elim false (fun s => decide (mkRat 1 20 < s))

/-- Core of `detect_mev_sandwich` after JSON deserialization succeeded:
size gate, victim lookup, directional matching, and the three sandwich
conditions. -/
def detect_mev_sandwich_core (transactions : List Transaction) : Bool :=
  if transactions.length < 3 then false
  else
    match find_uniswap_swap transactions with
    | none => false
    | some victim =>
      match find_matching_tx transactions victim Direction.Before,
            find_matching_tx transactions victim Direction.After with
      | some fr, some br =>
        (fr.sender == br.sender) && time_within_limit fr br && high_slippage_victim victim
      | _, _ => false

/-- Embedding of the exported `detect_mev_sandwich`, with the external
`serde_json::from_str` modelled as an abstract parse function and the
`eprintln!` error channel as the second component of the result. -/
def detect_mev_sandwich (parse : String → Except String (List Transaction))
    (transactions_json : String) : Bool × List String :=
  match parse transactions_json with
  | Except.error e => (false, ["Error deserializing transactions: " ++ e])
  | Except.ok txs => (detect_mev_sandwich_core txs, [])

/-- Helper building a `Transaction` with fixed irrelevant fields. -/
def mkTx (hash toa sender : String) (timestamp : Nat) (slip : Option ℚ)
    (isSwap : Bool) : Transaction :=
  { hash := hash, from_addr := "0xf", «to» := toa, value := "0", gas_price := "1",
    gas_limit := "21000", input := "0x", timestamp := timestamp, block_number := 1,
    sender := sender, slippage_tolerance := slip, is_uniswap_swap := isSwap,
    token_in := none, token_out := none, amount_in := none, amount_out_min := none }

/-- A swap-flagged victim at timestamp 100, pool address "P", 10% slippage. -/
def victimA : Transaction := mkTx "v" "P" "alice" 100 (some (mkRat 1 10)) true

/-- A candidate on the same pool, strictly after the victim (timestamp 200). -/
def candLate : Transaction := mkTx "a" "P" "bob" 200 none false

/-- A bot transaction on the victim's pool at the victim's timestamp. -/
def botTx : Transaction := mkTx "a" "P" "bot" 100 none false

/-- A filler transaction on an unrelated pool "Q". -/
def fillerQ : Transaction := mkTx "b" "Q" "carol" 100 none false

/-- A filler transaction on an unrelated pool "R". -/
def fillerR : Transaction := mkTx "c" "R" "dave" 100 none false

/-- The six fields of `Transaction` that the detection pipeline reads:
hash, destination, timestamp, sender, slippage tolerance and swap flag. -/
structure TransactionCore where
  hash : String
  «to» : String
  timestamp : Nat
  sender : String
  slippage_tolerance : Option ℚ
  is_uniswap_swap : Bool
deriving DecidableEq, Repr

/-- Projection of a transaction onto the fields the detector reads. -/
def proj (tx : Transaction) : TransactionCore :=
  ⟨tx.hash, tx.«to», tx.timestamp, tx.sender, tx.slippage_tolerance,
   tx.is_uniswap_swap⟩

/-- `find_uniswap_swap` on projected transactions. -/
def find_uniswap_swapC (l : List TransactionCore) : Option TransactionCore :=
  l.find? (fun tx => tx.is_uniswap_swap)

/-- `match_key` on projected transactions. -/
def match_keyC (victim : TransactionCore) (direction : Direction)
    (tx : TransactionCore) : Nat :=
  if direction = Direction.Before then
    u64_wrapping_sub victim.timestamp tx.timestamp
  else
    u64_wrapping_sub tx.timestamp victim.timestamp

/-- `min_by_key_first` on projected transactions. -/
def min_by_key_firstC (key : TransactionCore → Nat) :
    List TransactionCore → Option TransactionCore
  | [] => none
  | t :: ts => some (ts.foldl (fun best tx => if key tx < key best then tx else best) t)

/-- `match_filter` on projected transactions. -/
def match_filterC (victim tx : TransactionCore) : Bool :=
  tx.«to» == victim.«to» && !(tx.hash == victim.hash)

/-- `find_matching_tx` on projected transactions. -/
def find_matching_txC (l : List TransactionCore) (victim : TransactionCore)
    (direction : Direction) : Option TransactionCore :=
  min_by_key_firstC (match_keyC victim direction)
    (l.filter (fun tx => match_filterC victim tx))

/-- `time_within_limit` on projected transactions. -/
def time_within_limitC (fr br : TransactionCore) : Bool :=
  if br.timestamp > fr.timestamp then
    decide (br.timestamp - fr.timestamp < 120)
  else
    decide (fr.timestamp - br.timestamp < 120)

/-- `high_slippage_victim` on projected transactions. -/
def high_slippage_victimC (victim : TransactionCore) : Bool :=
  victim.slippage_tolerance.elim false (fun s => decide (mkRat 1 20 < s))

/-- `detect_mev_sandwich_core` on projected transactions. -/
def detect_mev_sandwich_coreC (l : List TransactionCore) : Bool :=
  if l.length < 3 then false
  else
    match find_uniswap_swapC l with
    | none => false
    | some victim =>
      match find_matching_txC l victim Direction.Before,
            find_matching_txC l victim Direction.After with
      | some fr, some br =>
        (fr.sender == br.sender) && time_within_limitC fr br && high_slippage_victimC victim
      | _, _ => false

/-
Helper lemmas shared between the claim theorems.
-/

/-- Victim lookup commutes with projection onto the read fields. -/
lemma find_uniswap_swapC_map (txs : List Transaction) :
    find_uniswap_swapC (txs.map proj) = (find_uniswap_swap txs).map proj := by
  unfold find_uniswap_swapC find_uniswap_swap
  rw [List.find?_map]
  rfl

/-- The candidate filter commutes with projection onto the read fields. -/
lemma filter_map_proj (txs : List Transaction) (victim : Transaction) :
    (txs.map proj).filter (fun tx => match_filterC (proj victim) tx) =
      (txs.filter (fun tx => match_filter victim tx)).map proj := by
  rw [List.filter_map]
  rfl

/-- The `min_by_key` fold commutes with projection onto the read fields. -/
lemma foldl_min_map (victim : Transaction) (d : Direction) :
    ∀ (ts : List Transaction) (t : Transaction),
      ts.foldl
        (fun best tx =>
          if match_keyC (proj victim) d (proj tx) < match_keyC (proj victim) d best
          then proj tx else best) (proj t)
        = proj (ts.foldl
            (fun best tx =>
              if match_key victim d tx < match_key victim d best then tx else best) t) := by
  intro ts
  induction ts with
  | nil => intro t; rfl
  | cons a as ih =>
    intro t
    rw [List.foldl_cons, List.foldl_cons]
    have harg :
        (if match_keyC (proj victim) d (proj a) < match_keyC (proj victim) d (proj t)
         then proj a else proj t)
          = proj (if match_key victim d a < match_key victim d t then a else t) := by
      rw [apply_ite proj]
      rfl
    rw [harg]
    exact ih _

/-- Directional matching commutes with projection onto the read fields. -/
lemma find_matching_txC_map (txs : List Transaction) (victim : Transaction)
    (d : Direction) :
    find_matching_txC (txs.map proj) (proj victim) d =
      (find_matching_tx txs victim d).map proj := by
  unfold find_matching_txC find_matching_tx
  rw [filter_map_proj]
  cases h : txs.filter (fun tx => match_filter victim tx) with
  | nil => rfl
  | cons t ts =>
    unfold min_by_key_firstC min_by_key_first
    simp only [List.map_cons]
    rw [List.foldl_map, foldl_min_map victim d ts t]
    rfl

/-- The whole detector reads only the projected fields. -/
lemma detect_coreC_map (txs : List Transaction) :
    detect_mev_sandwich_coreC (txs.map proj) = detect_mev_sandwich_core txs := by
  unfold detect_mev_sandwich_coreC detect_mev_sandwich_core
  rw [List.length_map]
  by_cases h3 : txs.length < 3
  · rw [if_pos h3, if_pos h3]
  · rw [if_neg h3, if_neg h3, find_uniswap_swapC_map]
    cases hv : find_uniswap_swap txs with
    | none => rfl
    | some v =>
      simp only [Option.map_some', find_matching_txC_map]
      cases hf : find_matching_tx txs v Direction.Before with
      | none => cases hb : find_matching_tx txs v Direction.After <;> rfl
      | some fr =>
        cases hb : find_matching_tx txs v Direction.After with
        | none => rfl
        | some br => rfl

/-- Agreement on the six read fields makes the projections equal. -/
lemma proj_eq_of_agreement {a b : Transaction}
    (h : a.hash = b.hash ∧ a.«to» = b.«to» ∧ a.timestamp = b.timestamp ∧
         a.sender = b.sender ∧ a.slippage_tolerance = b.slippage_tolerance ∧
         a.is_uniswap_swap = b.is_uniswap_swap) : proj a = proj b := by
  obtain ⟨h1, h2, h3, h4, h5, h6⟩ := h
  unfold proj
  rw [h1, h2, h3, h4, h5, h6]

/-- The guarded time check accepts exactly the pairs whose timestamp
distance is below 120. -/
lemma time_within_limit_iff (fr br : Transaction) :
    time_within_limit fr br = true ↔ Nat.dist br.timestamp fr.timestamp < 120 := by
  unfold time_within_limit
  rw [Nat.dist]
  split <;> simp <;> omega

/-- The slippage check accepts exactly the victims carrying a tolerance
strictly above `1/20`. -/
lemma high_slippage_iff (v : Transaction) :
    high_slippage_victim v = true ↔
      ∃ s, v.slippage_tolerance = some s ∧ mkRat 1 20 < s := by
  unfold high_slippage_victim
  cases h : v.slippage_tolerance <;> simp [Option.elim]

/-
Claim theorems.
-/

/-- Claim C1 (code bug): the Rust `find_matching_tx` never filters
candidates by timestamp, so with direction `Before` and a sole candidate
strictly AFTER the reference it still returns that candidate — its
timestamp exceeds the reference's, violating direction-consistency.  (In a
debug build the `u64` subtraction would panic instead; the model uses the
release wrapping semantics.) -/
theorem find_matching_before_returns_later_tx :
    find_matching_tx [candLate] victimA Direction.Before = some candLate ∧
    victimA.timestamp < candLate.timestamp := by
  constructor <;> decide

/-- Claim C2 (code bug): `find_matching_tx` performs the `u64` subtraction
`victim.timestamp - tx.timestamp` on a candidate whose timestamp (200) is
strictly larger than the victim's (100): no defensive exclusion happens,
and the wrapped key equals `2 ^ 64 - 100`. -/
theorem match_key_wrong_side_subtraction :
    (100, 200) ∈ match_key_subtractions [candLate] victimA Direction.Before ∧
    (100 : Nat) < 200 ∧
    match_key victimA Direction.Before candLate = 2 ^ 64 - 100 := by
  refine ⟨by decide, by decide, by decide⟩

/-- Claim C4: the 120-second temporal-proximity check is order-independent
in its two arguments, and (for `u64`-range timestamps) the guarded
computation coincides with the wrapping-`u64` computation, i.e. neither
branch ever relies on an underflowing subtraction. -/
theorem time_within_limit_order_independent (fr br : Transaction) :
    time_within_limit fr br = time_within_limit br fr ∧
    (fr.timestamp < 2 ^ 64 → br.timestamp < 2 ^ 64 →
      time_within_limit_u64 fr br = time_within_limit fr br) := by
  constructor
  · rw [Bool.eq_iff_iff, time_within_limit_iff, time_within_limit_iff, Nat.dist_comm]
  · intro hf hb
    unfold time_within_limit_u64 time_within_limit u64_wrapping_sub
    split <;> rw [decide_eq_decide] <;> omega

/-- Witness for C4 at concrete transactions. -/
theorem time_within_limit_order_independent_witness :
    botTx.timestamp < 2 ^ 64 ∧ victimA.timestamp < 2 ^ 64 ∧
    time_within_limit botTx victimA = time_within_limit victimA botTx ∧
    time_within_limit_u64 botTx victimA = time_within_limit botTx victimA :=
  ⟨by decide, by decide,
   (time_within_limit_order_independent botTx victimA).1,
   (time_within_limit_order_independent botTx victimA).2 (by decide) (by decide)⟩

/-- Claim C5: a cluster of fewer than 3 transactions is never reported as a
sandwich, whatever its contents. -/
theorem detect_small_cluster (txs : List Transaction) (h : txs.length < 3) :
    detect_mev_sandwich_core txs = false := by
  unfold detect_mev_sandwich_core
  rw [if_pos h]

/-- Witness for C5 on a two-element cluster. -/
theorem detect_small_cluster_witness :
    ([victimA, botTx] : List Transaction).length < 3 ∧
    detect_mev_sandwich_core [victimA, botTx] = false :=
  ⟨by decide, detect_small_cluster [victimA, botTx] (by decide)⟩

/-- Claim C8: whenever deserialization fails, `detect_mev_sandwich` returns
`false` together with a diagnostic on the error channel, for every parse
function and every input string. -/
theorem detect_parse_failure (parse : String → Except String (List Transaction))
    (s e : String) (h : parse s = Except.error e) :
    detect_mev_sandwich parse s =
      (false, ["Error deserializing transactions: " ++ e]) := by
  unfold detect_mev_sandwich
  rw [h]

/-- Witness for C8 at a concrete failing parse. -/
theorem detect_parse_failure_witness :
    detect_mev_sandwich (fun _ => Except.error "expected value") "not json" =
      (false, ["Error deserializing transactions: expected value"]) :=
  detect_parse_failure _ "not json" "expected value" rfl

/-- Claim C9: nothing forces the frontrun and backrun to be distinct — on a
concrete 3-transaction cluster the same transaction `botTx` is returned for
both `Before` and `After`, and the detector reports a sandwich. -/
theorem two_tx_sandwich_exists :
    find_matching_tx [botTx, victimA, fillerQ] victimA Direction.Before = some botTx ∧
    find_matching_tx [botTx, victimA, fillerQ] victimA Direction.After = some botTx ∧
    3 ≤ ([botTx, victimA, fillerQ] : List Transaction).length ∧
    find_uniswap_swap [botTx, victimA, fillerQ] = some victimA ∧
    detect_mev_sandwich_core [botTx, victimA, fillerQ] = true := by
  refine ⟨by decide, by decide, by decide, by decide, by decide⟩

/-- Claim C3: with at least 3 transactions, a victim found and both sides
matched, the verdict is `true` exactly when the attacker addresses agree,
the two attack legs lie within 120 seconds of each other (absolute
difference), and the victim carries a slippage tolerance strictly above
`1/20` (= 0.05). -/
theorem detect_core_characterization (txs : List Transaction)
    (victim fr br : Transaction)
    (h3 : 3 ≤ txs.length)
    (hv : find_uniswap_swap txs = some victim)
    (hf : find_matching_tx txs victim Direction.Before = some fr)
    (hb : find_matching_tx txs victim Direction.After = some br) :
    detect_mev_sandwich_core txs = true ↔
      (fr.sender = br.sender ∧ Nat.dist br.timestamp fr.timestamp < 120 ∧
       ∃ s, victim.slippage_tolerance = some s ∧ mkRat 1 20 < s) := by
  unfold detect_mev_sandwich_core
  rw [if_neg (by omega), hv]
  simp only [hf, hb, Bool.and_eq_true, beq_iff_eq, time_within_limit_iff,
    high_slippage_iff]
  tauto

/-- Witness for C3 on the concrete cluster of C9. -/
theorem detect_core_characterization_witness :
    detect_mev_sandwich_core [botTx, victimA, fillerQ] = true ↔
      (botTx.sender = botTx.sender ∧
       Nat.dist botTx.timestamp botTx.timestamp < 120 ∧
       ∃ s, victimA.slippage_tolerance = some s ∧ mkRat 1 20 < s) :=
  detect_core_characterization [botTx, victimA, fillerQ] victimA botTx botTx
    (by decide) (by decide) (by decide) (by decide)

/-- The locator returns the head of the flagged suffix whenever the prefix
before it is flag-free: the completeness half of the first-match contract. -/
lemma find_uniswap_swap_append (v : Transaction) (l1 l2 : List Transaction)
    (hv : v.is_uniswap_swap = true) (hall : ∀ u ∈ l1, u.is_uniswap_swap = false) :
    find_uniswap_swap (l1 ++ v :: l2) = some v := by
  induction l1 with
  | nil =>
    rw [List.nil_append, find_uniswap_swap, List.find?_cons_of_pos _ hv]
  | cons a as ih =>
    have ha : a.is_uniswap_swap = false := hall a (by simp)
    rw [List.cons_append, find_uniswap_swap,
      List.find?_cons_of_neg _ (by simp [ha])]
    exact ih (fun u hu => hall u (by simp [hu]))

/-- Claim C6: the victim locator returns `some v` exactly when `v` is the
first swap-flagged transaction in input order (so a flagged transaction
forces a `some` result, and `none` occurs only when the flag is nowhere
set), and a cluster with no swap-flagged transaction is never reported as a
sandwich. -/
theorem find_uniswap_swap_first (txs : List Transaction) :
    (∀ v, find_uniswap_swap txs = some v ↔
      (v.is_uniswap_swap = true ∧
       ∃ l1 l2, txs = l1 ++ v :: l2 ∧ ∀ u ∈ l1, u.is_uniswap_swap = false)) ∧
    ((∀ tx ∈ txs, tx.is_uniswap_swap = false) →
      find_uniswap_swap txs = none ∧ detect_mev_sandwich_core txs = false) := by
  constructor
  · intro v
    constructor
    · induction txs with
      | nil => intro h; simp [find_uniswap_swap] at h
      | cons t ts ih =>
        intro h
        by_cases ht : t.is_uniswap_swap = true
        · rw [find_uniswap_swap, List.find?_cons_of_pos _ ht] at h
          obtain rfl : t = v := by injection h
          exact ⟨ht, [], ts, rfl, by simp⟩
        · rw [find_uniswap_swap, List.find?_cons_of_neg _ (by simpa using ht)] at h
          obtain ⟨hv, l1, l2, heq, hall⟩ := ih h
          refine ⟨hv, t :: l1, l2, by rw [heq]; rfl, ?_⟩
          intro u hu
          rcases List.mem_cons.mp hu with rfl | hu
          · exact Bool.not_eq_true _ ▸ ht
          · exact hall u hu
    · rintro ⟨hv, l1, l2, rfl, hall⟩
      exact find_uniswap_swap_append v l1 l2 hv hall
  · intro h
    have hn : find_uniswap_swap txs = none := by
      unfold find_uniswap_swap
      rw [List.find?_eq_none]
      intro x hx
      simp [h x hx]
    refine ⟨hn, ?_⟩
    unfold detect_mev_sandwich_core
    rw [hn]
    split <;> rfl

/-- Witness for C6: the positive direction on a cluster whose first flagged
transaction sits in the middle, and the none case on a flag-free cluster. -/
theorem find_uniswap_swap_first_witness :
    find_uniswap_swap [fillerQ, victimA, botTx] = some victimA ∧
    find_uniswap_swap [botTx, candLate, fillerQ] = none ∧
    detect_mev_sandwich_core [botTx, candLate, fillerQ] = false :=
  ⟨((find_uniswap_swap_first [fillerQ, victimA, botTx]).1 victimA).mpr
      ⟨by decide, [fillerQ], [botTx], rfl, by decide⟩,
   (find_uniswap_swap_first [botTx, candLate, fillerQ]).2 (by decide)⟩

/-- Claim C7: if no other transaction of the cluster shares the victim's
destination address, both directional matches come back empty and the
detector reports no sandwich. -/
theorem no_shared_destination_no_match (txs : List Transaction)
    (victim : Transaction)
    (h3 : 3 ≤ txs.length)
    (hv : find_uniswap_swap txs = some victim)
    (hno : ∀ tx ∈ txs, tx.«to» = victim.«to» → tx.hash = victim.hash) :
    find_matching_tx txs victim Direction.Before = none ∧
    find_matching_tx txs victim Direction.After = none ∧
    detect_mev_sandwich_core txs = false := by
  have hfilter : txs.filter (fun tx => match_filter victim tx) = [] := by
    rw [List.filter_eq_nil_iff]
    intro tx htx
    unfold match_filter
    simp only [Bool.and_eq_true, Bool.not_eq_true', beq_iff_eq, beq_eq_false_iff_ne,
      not_and]
    intro h1 h2
    exact h2 (hno tx htx h1)
  have hbef : find_matching_tx txs victim Direction.Before = none := by
    unfold find_matching_tx
    rw [hfilter]
    rfl
  have haft : find_matching_tx txs victim Direction.After = none := by
    unfold find_matching_tx
    rw [hfilter]
    rfl
  refine ⟨hbef, haft, ?_⟩
  unfold detect_mev_sandwich_core
  rw [if_neg (by omega), hv]
  simp only [hbef, haft]

/-- Witness for C7 on a concrete cluster whose victim's pool appears once. -/
theorem no_shared_destination_no_match_witness :
    find_matching_tx [victimA, fillerQ, fillerR] victimA Direction.Before = none ∧
    find_matching_tx [victimA, fillerQ, fillerR] victimA Direction.After = none ∧
    detect_mev_sandwich_core [victimA, fillerQ, fillerR] = false :=
  no_shared_destination_no_match [victimA, fillerQ, fillerR] victimA
    (by decide) (by decide) (by decide)

/-- Claim C10: the verdict depends only on the fields hash, to, timestamp,
sender, slippage_tolerance and is_uniswap_swap — two clusters agreeing
pairwise on these six fields (and arbitrary elsewhere) get the same
verdict. -/
theorem detect_depends_only_on_core_fields (txs1 txs2 : List Transaction)
    (h : List.Forall₂
      (fun a b => a.hash = b.hash ∧ a.«to» = b.«to» ∧ a.timestamp = b.timestamp ∧
        a.sender = b.sender ∧ a.slippage_tolerance = b.slippage_tolerance ∧
        a.is_uniswap_swap = b.is_uniswap_swap) txs1 txs2) :
    detect_mev_sandwich_core txs1 = detect_mev_sandwich_core txs2 := by
  have hmap : txs1.map proj = txs2.map proj := by
    induction h with
    | nil => rfl
    | cons hab htail ih =>
      simp only [List.map_cons]
      rw [proj_eq_of_agreement hab, ih]
  rw [← detect_coreC_map txs1, ← detect_coreC_map txs2, hmap]

/-- Variant of `botTx` with the ten unread fields changed. -/
def botTxNoise : Transaction :=
  { botTx with
    from_addr := "0xdead", value := "999", gas_price := "777",
    gas_limit := "1", input := "0xdeadbeef", block_number := 42,
    token_in := some "T1", token_out := some "T2", amount_in := some "5",
    amount_out_min := some "4" }

/-- Variant of `victimA` with the ten unread fields changed. -/
def victimANoise : Transaction :=
  { victimA with
    from_addr := "0xbeef", value := "123", gas_price := "9",
    gas_limit := "2", input := "0xcafe", block_number := 7,
    token_in := some "T3", token_out := some "T4", amount_in := some "6",
    amount_out_min := some "3" }

/-- Variant of `fillerQ` with the ten unread fields changed. -/
def fillerQNoise : Transaction :=
  { fillerQ with
    from_addr := "0x0", value := "1", gas_price := "2",
    gas_limit := "3", input := "0x00", block_number := 9,
    token_in := some "T5", token_out := some "T6", amount_in := some "7",
    amount_out_min := some "2" }

/-- Witness for C10 on two concrete clusters differing only in unread
fields. -/
theorem detect_depends_only_on_core_fields_witness :
    detect_mev_sandwich_core [botTx, victimA, fillerQ] =
      detect_mev_sandwich_core [botTxNoise, victimANoise, fillerQNoise] :=
  detect_depends_only_on_core_fields
    [botTx, victimA, fillerQ] [botTxNoise, victimANoise, fillerQNoise]
    (List.Forall₂.cons (by decide)
      (List.Forall₂.cons (by decide)
        (List.Forall₂.cons (by decide) List.Forall₂.nil)))

end MevEngine
